import Mathlib

/-!
Shallow embedding of `src/utils.c` (raylib utility module): the trace logger
(`TraceLog` and its three configuration setters), the four whole-file I/O
helpers (`LoadFileData`, `SaveFileData`, `LoadFileText`, `SaveFileText`),
and the Android asset shim (`android_fopen`, `android_write`).

Modelling conventions:
- C `NULL` string arguments become `Option String` (`none` = NULL pointer).
- Byte buffers are `List Nat`.
- Every `TRACELOG(level, fmt, ...)` invocation is recorded as a
  `(level, formatted message)` pair in a `logs` field of the result.
- The filesystem is an association list from names to byte contents, plus
  environment predicates saying which names open successfully for writing
  and for which streams `ftell` succeeds.
- Machine-integer casts that matter are explicit: the `(unsigned int)` cast
  in `LoadFileText` is `% 2^32`.
-/

set_option autoImplicit false

namespace RaylibUtils

/-- Modelled from the spec: the ordered severity enumeration of `raylib.h`
(which is not among the sources; only `utils.c` is). The spec fixes the strict
order trace < debug < info < warning < error < fatal, and that is all the code
relies on; concrete values follow that order. -/
def LOG_TRACE : Int := 1

def LOG_DEBUG : Int := 2

def LOG_INFO : Int := 3

def LOG_WARNING : Int := 4

def LOG_ERROR : Int := 5

def LOG_FATAL : Int := 6

/-- `MAX_TRACELOG_MSG_LENGTH` from `utils.c`: size in bytes of the staging
buffer `char buffer[MAX_TRACELOG_MSG_LENGTH]` used by `TraceLog`. -/
def MAX_TRACELOG_MSG_LENGTH : Nat := 128

/-- The process-wide logger state of `utils.c`: `logTypeLevel` (minimum level
to emit, default `LOG_INFO`), `logTypeExit` (level that exits, default
`LOG_ERROR`), and whether a `logCallback` is installed (`NULL` = `false`). -/
structure LogState where
  logTypeLevel : Int
  logTypeExit : Int
  logCallback : Bool
deriving DecidableEq

/-- Observable effects of one `TraceLog` call, in program order:
`callbackInvoked` records `logCallback(logType, text, args)`;
`wrote` records the `vprintf(buffer, args)` of the composed message;
`exited s` records `exit(s)`. -/
inductive LogEvent where
  | callbackInvoked (logType : Int) (text : String) (args : List String)
  | wrote (msg : String) (args : List String)
  | exited (status : Nat)
deriving DecidableEq

/-- The severity label copied into the staging buffer by the `switch` in
`TraceLog` (the non-Android branch); unrecognized severities leave the buffer
empty. -/
def severityLabel (logType : Int) : String :=
  if logType = LOG_TRACE then "TRACE: "
  else if logType = LOG_DEBUG then "DEBUG: "
  else if logType = LOG_INFO then "INFO: "
  else if logType = LOG_WARNING then "WARNING: "
  else if logType = LOG_ERROR then "ERROR: "
  else if logType = LOG_FATAL then "FATAL: "
  else ""

/-- `TraceLog(logType, text, ...)` with `SUPPORT_TRACELOG` defined, desktop
branch. Returns the (unchanged) logger state — the function assigns no
global — together with the list of observable events in program order:
filter by `logTypeLevel`, short-circuit to the callback, otherwise compose
label + text + newline, print, then `exit(1)` when `logType >= logTypeExit`. -/
def traceLog (s : LogState) (logType : Int) (text : String) (args : List String) :
    LogState × List LogEvent :=
  if logType < s.logTypeLevel then (s, [])
  else if s.logCallback then (s, [LogEvent.callbackInvoked logType text args])
  else
    (s, [LogEvent.wrote (severityLabel logType ++ text ++ "\n") args] ++
      (if s.logTypeExit ≤ logType then [LogEvent.exited 1] else []))

/-- Number of bytes `TraceLog`'s default path stores into the 128-byte staging
buffer: `strcpy(buffer, label)` then `strcat(buffer, text)` then
`strcat(buffer, "\n")` touch `label.length + text.length + 1` message bytes
plus the final NUL terminator. No length check guards this against
`MAX_TRACELOG_MSG_LENGTH`. -/
def tracelogStagedBytes (logType : Int) (text : String) : Nat :=
  (severityLabel logType).length + text.length + 2

/-- The environment the file helpers run against: `files` is the filesystem
contents (association list, most recent write first); `writeOk name` says
whether `fopen(name, "wb"/"wt")` succeeds; `ftellOk name` says whether the
`ftell` size query on an opened stream succeeds (on failure `ftell` returns
`-1`). Reads and writes themselves are assumed to complete fully. -/
structure FS where
  files : List (String × List Nat)
  writeOk : String → Bool
  ftellOk : String → Bool

/-- `fopen(name, "rb"/"rt")`: succeeds exactly when the file exists. -/
def FS.openRead (fs : FS) (name : String) : Option (List Nat) :=
  fs.files.lookup name

/-- The `(unsigned int)` cast applied to the `long` result of `ftell` in
`LoadFileText`. -/
def castUInt (i : Int) : Nat :=
  (i % 4294967296).toNat

/-- Result of `LoadFileData`: the returned pointer (`none` = `NULL`), the
value stored through `bytesRead`, whether any `fopen` call was made, and the
`TRACELOG` messages issued. -/
structure LoadFileDataResult where
  data : Option (List Nat)
  bytesRead : Nat
  openAttempted : Bool
  logs : List (Int × String)
deriving DecidableEq

/-- `LoadFileData(fileName, &bytesRead)` from `utils.c`. `int size = ftell(...)`
is signed, so a failed size query (`-1`) falls into the `size > 0 … else`
warning branch. A full read returns `count = size` elements. -/
def loadFileData (fs : FS) (fileName : Option String) : LoadFileDataResult :=
  match fileName with
  | none =>
      { data := none, bytesRead := 0, openAttempted := false
        logs := [(LOG_WARNING, "FILEIO: File name provided is not valid")] }
  | some name =>
      match fs.openRead name with
      | none =>
          { data := none, bytesRead := 0, openAttempted := true
            logs := [(LOG_WARNING, "FILEIO: [" ++ name ++ "] Failed to open file")] }
      | some content =>
          let size : Int := if fs.ftellOk name then (content.length : Int) else -1
          if 0 < size then
            let count := content.length
            { data := some content, bytesRead := count, openAttempted := true
              logs := if (count : Int) ≠ size then
                  [(LOG_WARNING, "FILEIO: [" ++ name ++ "] File partially loaded")]
                else
                  [(LOG_INFO, "FILEIO: [" ++ name ++ "] File loaded successfully")] }
          else
            { data := none, bytesRead := 0, openAttempted := true
              logs := [(LOG_WARNING, "FILEIO: [" ++ name ++ "] Failed to read file")] }

/-- Result of `SaveFileData`/`SaveFileText`: the filesystem after the call
(the function itself returns `void`), whether any `fopen` call was made, and
the `TRACELOG` messages issued. -/
structure SaveFileResult where
  fs : FS
  openAttempted : Bool
  logs : List (Int × String)

/-- `SaveFileData(fileName, data, bytesToWrite)` from `utils.c`: open `"wb"`
(truncating), `fwrite` the first `bytesToWrite` bytes of `data` (assumed to
complete fully, so `count = bytesToWrite`), then log by checking `count == 0`
first, `count != bytesToWrite` second, success last. -/
def saveFileData (fs : FS) (fileName : Option String) (data : List Nat)
    (bytesToWrite : Nat) : SaveFileResult :=
  match fileName with
  | none =>
      { fs := fs, openAttempted := false
        logs := [(LOG_WARNING, "FILEIO: File name provided is not valid")] }
  | some name =>
      if fs.writeOk name then
        let count := bytesToWrite
        { fs := { fs with files := (name, data.take bytesToWrite) :: fs.files }
          openAttempted := true
          logs := if count = 0 then
              [(LOG_WARNING, "FILEIO: [" ++ name ++ "] Failed to write file")]
            else if count ≠ bytesToWrite then
              [(LOG_WARNING, "FILEIO: [" ++ name ++ "] File partially written")]
            else
              [(LOG_INFO, "FILEIO: [" ++ name ++ "] File saved successfully")] }
      else
        { fs := fs, openAttempted := true
          logs := [(LOG_WARNING, "FILEIO: [" ++ name ++ "] Failed to open file")] }

/-- Text-mode newline translation performed by `fread` on a stream opened
with `"rt"`: each CR LF pair in the raw bytes is delivered as a single LF,
so the delivered byte count can be smaller than the raw file size. -/
def textTranslate : List Nat → List Nat
  | 13 :: 10 :: rest => 10 :: textTranslate rest
  | b :: rest => b :: textTranslate rest
  | [] => []

/-- Result of `LoadFileText`: the returned pointer (`none` = `NULL`) as the
bytes of the final buffer including the terminator, the size in bytes of the
final allocation, whether `fopen` was called, and the `TRACELOG` messages. -/
structure LoadFileTextResult where
  text : Option (List Nat)
  allocSize : Nat
  openAttempted : Bool
  logs : List (Int × String)
deriving DecidableEq

/-- `LoadFileText(fileName)` from `utils.c`. `unsigned int size =
(unsigned int)ftell(...)` — the cast is modelled exactly, so a failed size
query gives `size = 2^32 - 1`. The buffer is `malloc(size + 1)`; `fread`
delivers `count = min size |translated|` bytes; if `count < size` the buffer
is shrunk by `realloc(count + 1)`; byte `count` is set to NUL. -/
def loadFileText (fs : FS) (fileName : Option String) : LoadFileTextResult :=
  match fileName with
  | none =>
      { text := none, allocSize := 0, openAttempted := false
        logs := [(LOG_WARNING, "FILEIO: File name provided is not valid")] }
  | some name =>
      match fs.openRead name with
      | none =>
          { text := none, allocSize := 0, openAttempted := true
            logs := [(LOG_WARNING, "FILEIO: [" ++ name ++ "] Failed to open text file")] }
      | some raw =>
          let size : Nat := castUInt (if fs.ftellOk name then (raw.length : Int) else -1)
          if 0 < size then
            let stream := textTranslate raw
            let count := min size stream.length
            let readBytes := stream.take count
            { text := some (readBytes ++ [0])
              allocSize := if count < size then count + 1 else size + 1
              openAttempted := true
              logs := [(LOG_INFO, "FILEIO: [" ++ name ++ "] Text file loaded successfully")] }
          else
            { text := none, allocSize := 0, openAttempted := true
              logs := [(LOG_WARNING, "FILEIO: [" ++ name ++ "] Failed to read text file")] }

/-- `SaveFileText(fileName, text)` from `utils.c`: open `"wt"`, write the
NUL-terminated string with `fprintf(file, "%s", text)` (modelled as writing
`text`'s bytes, returning their count, which is never negative here), warn on
a negative count, otherwise log success. -/
def saveFileText (fs : FS) (fileName : Option String) (text : List Nat) :
    SaveFileResult :=
  match fileName with
  | none =>
      { fs := fs, openAttempted := false
        logs := [(LOG_WARNING, "FILEIO: File name provided is not valid")] }
  | some name =>
      if fs.writeOk name then
        let count : Int := text.length
        { fs := { fs with files := (name, text) :: fs.files }
          openAttempted := true
          logs := if count < 0 then
              [(LOG_WARNING, "FILEIO: [" ++ name ++ "] Failed to write text file")]
            else
              [(LOG_INFO, "FILEIO: [" ++ name ++ "] Text file saved successfully")] }
      else
        { fs := fs, openAttempted := true
          logs := [(LOG_WARNING, "FILEIO: [" ++ name ++ "] Failed to open text file")] }

/-- The `PLATFORM_ANDROID` shim state set by `InitAssetManager`: the asset
bundle contents (reachable through `AAssetManager_open`) and the base data
path `internalDataPath`. -/
structure AndroidEnv where
  assets : List (String × List Nat)
  internalDataPath : String

/-- What `android_fopen` returns: either a plain `fopen` of a path with a
mode (the direct-filesystem route), or the `funopen` adapter wrapping an
asset-bundle handle. -/
inductive AndroidFile where
  | direct (path : String) (mode : String)
  | assetStream (name : String)
deriving DecidableEq

/-- Result of `android_fopen`: the stream handed back, plus whether
`AAssetManager_open` was invoked on the asset bundle at all. -/
structure AndroidOpenResult where
  file : AndroidFile
  assetQueried : Bool
deriving DecidableEq

/-- `android_fopen(fileName, mode)` from `utils.c`: when `mode[0] == 'w'`,
bypass the bundle and `fopen` `internalDataPath "/" fileName` directly;
otherwise query the bundle with `AAssetManager_open` and either return the
`funopen` adapter (asset found) or fall back to the same direct `fopen`. -/
def android_fopen (env : AndroidEnv) (fileName : String) (mode : String) :
    AndroidOpenResult :=
  if mode.data.head? = some 'w' then
    { file := AndroidFile.direct (env.internalDataPath ++ "/" ++ fileName) mode
      assetQueried := false }
  else
    match env.assets.lookup fileName with
    | some _ => { file := AndroidFile.assetStream fileName, assetQueried := true }
    | none =>
        { file := AndroidFile.direct (env.internalDataPath ++ "/" ++ fileName) mode
          assetQueried := true }

/-- Modelled from the spec: a mode string "indicates write intent" when it
requests any form of writing in the standard `fopen` mode language — it
contains `w` (truncate/write), `a` (append), or `+` (update). -/
def modeIndicatesWriteIntent (mode : String) : Bool :=
  mode.data.any fun c => c = 'w' || c = 'a' || c = '+'

/-- `EACCES` (permission denied), the positive errno constant `android_write`
returns as its function result; 13 on Linux/Android. -/
def EACCES : Int := 13

/-- Result of `android_write`: its `int` return value, handed to the stdio
layer by `funopen` (which reads a nonnegative return as the number of bytes
written and `-1` as an error), and the `TRACELOG` messages issued. -/
structure AndroidWriteResult where
  ret : Int
  logs : List (Int × String)
deriving DecidableEq

/-- `android_write(cookie, buf, size)` from `utils.c`: log a warning naming
the read-only constraint and `return EACCES`. -/
def android_write (buf : List Nat) (size : Int) : AndroidWriteResult :=
  { ret := EACCES
    logs := [(LOG_WARNING, "ANDROID: Failed to provide write access to APK")] }

/-- A concrete environment: empty filesystem, every write-open fails (as
`fopen` on an empty path does), every size query succeeds. -/
def fsBare : FS :=
  { files := [], writeOk := fun _ => false, ftellOk := fun _ => true }

/-- A concrete environment: empty filesystem, every write-open and every
size query succeeds. -/
def fsRW : FS :=
  { files := [], writeOk := fun _ => true, ftellOk := fun _ => true }

/-- A concrete environment holding `a.txt` with bytes `AB`, where the
`ftell` size query fails (returns `-1`). -/
def fsFtellFail : FS :=
  { files := [("a.txt", [65, 66])], writeOk := fun _ => true, ftellOk := fun _ => false }

/-- A concrete Android environment: the asset bundle holds `save.dat`, and
the base data path is `/data/data/app`. -/
def androidEnv0 : AndroidEnv :=
  { assets := [("save.dat", [1, 2])], internalDataPath := "/data/data/app" }

/-- C1: if the minimum log level is strictly above the message severity,
`TraceLog` produces no output, invokes no callback, performs no exit, and
leaves the logger state unchanged: the call is `(s, [])`. -/
theorem traceLog_below_level_silent (s : LogState) (logType : Int)
    (text : String) (args : List String) (h : logType < s.logTypeLevel) :
    traceLog s logType text args = (s, []) := by
  simp [traceLog, h]

/-- Witness for C1 at a concrete state: minimum level `LOG_INFO = 3`,
message severity `LOG_DEBUG = 2`. -/
theorem traceLog_below_level_silent_witness :
    (2 : Int) < (⟨3, 5, false⟩ : LogState).logTypeLevel ∧
    traceLog ⟨3, 5, false⟩ 2 "boot detail" [] = (⟨3, 5, false⟩, []) :=
  ⟨by decide, traceLog_below_level_silent ⟨3, 5, false⟩ 2 "boot detail" [] (by decide)⟩

/-- C2: with a callback installed and the severity at or above the minimum
level, `TraceLog` forwards severity, format string and argument list to the
callback verbatim and returns: no `wrote` output, no `exited` event, whatever
the exit threshold is. -/
theorem traceLog_callback_forwards (s : LogState) (logType : Int)
    (text : String) (args : List String) (hcb : s.logCallback = true)
    (hlvl : s.logTypeLevel ≤ logType) :
    traceLog s logType text args =
      (s, [LogEvent.callbackInvoked logType text args]) := by
  simp [traceLog, hcb, not_lt.mpr hlvl]

/-- Witness for C2 at a concrete state where the severity (`LOG_FATAL = 6`)
is also at the exit threshold (`LOG_ERROR = 5`): the callback still
short-circuits and no exit event occurs. -/
theorem traceLog_callback_forwards_witness :
    (⟨1, 5, true⟩ : LogState).logCallback = true ∧
    (⟨1, 5, true⟩ : LogState).logTypeLevel ≤ 6 ∧
    (⟨1, 5, true⟩ : LogState).logTypeExit ≤ 6 ∧
    traceLog ⟨1, 5, true⟩ 6 "fatal problem %i" ["42"] =
      (⟨1, 5, true⟩, [LogEvent.callbackInvoked 6 "fatal problem %i" ["42"]]) :=
  ⟨rfl, by decide, by decide,
    traceLog_callback_forwards ⟨1, 5, true⟩ 6 "fatal problem %i" ["42"] rfl (by decide)⟩

/-- C3: on the default path (no callback, severity at or above the minimum
level), `TraceLog` first writes the composed message to the default output
and then — exactly when the severity is at or above the exit threshold —
terminates with the non-zero status 1; below the exit threshold it returns
after the write without terminating. -/
theorem traceLog_default_output_then_exit (s : LogState) (logType : Int)
    (text : String) (args : List String) (hcb : s.logCallback = false)
    (hlvl : s.logTypeLevel ≤ logType) :
    traceLog s logType text args =
      (s, LogEvent.wrote (severityLabel logType ++ text ++ "\n") args ::
        (if s.logTypeExit ≤ logType then [LogEvent.exited 1] else [])) := by
  simp [traceLog, hcb, not_lt.mpr hlvl]

/-- Witness for C3, both sides of the exit threshold at concrete states:
`LOG_ERROR = 5` at threshold 5 writes then exits with status 1; `LOG_WARNING
= 4` below threshold 5 writes and does not exit. -/
theorem traceLog_default_output_then_exit_witness :
    (traceLog ⟨3, 5, false⟩ 5 "bad" [] =
      (⟨3, 5, false⟩, [LogEvent.wrote "ERROR: bad\n" [], LogEvent.exited 1])) ∧
    (traceLog ⟨3, 5, false⟩ 4 "odd" [] =
      (⟨3, 5, false⟩, [LogEvent.wrote "WARNING: odd\n" []])) :=
  ⟨(traceLog_default_output_then_exit ⟨3, 5, false⟩ 5 "bad" [] rfl (by decide)).trans
      (by decide),
    (traceLog_default_output_then_exit ⟨3, 5, false⟩ 4 "odd" [] rfl (by decide)).trans
      (by decide)⟩

/-- C4 counterexample: an EMPTY (non-null) path is not caught by the
`fileName != NULL` guard — all four helpers pass it straight to `fopen`
(`openAttempted = true`) and the resulting log is the open-failure warning,
not the invalid-filename warning the claim requires. -/
theorem emptyPath_fs_call_attempted :
    (loadFileData fsBare (some "")).openAttempted = true ∧
    (loadFileData fsBare (some "")).logs =
      [(LOG_WARNING, "FILEIO: [] Failed to open file")] ∧
    (loadFileText fsBare (some "")).openAttempted = true ∧
    (saveFileData fsBare (some "") [1] 1).openAttempted = true ∧
    (saveFileText fsBare (some "") [1]).openAttempted = true := by
  refine ⟨rfl, rfl, rfl, rfl, rfl⟩

/-- C4 amended: for a NULL path, each of the four file helpers makes no
file-system call, logs the invalid-filename warning, returns the empty/absent
sentinel (null buffer and `bytesRead = 0` for the loads), and leaves the
filesystem untouched. (An empty non-null path instead goes to `fopen`.) -/
theorem nullPath_no_fs_call (fs : FS) (data text : List Nat) (n : Nat) :
    loadFileData fs none =
      ⟨none, 0, false, [(LOG_WARNING, "FILEIO: File name provided is not valid")]⟩ ∧
    loadFileText fs none =
      ⟨none, 0, false, [(LOG_WARNING, "FILEIO: File name provided is not valid")]⟩ ∧
    saveFileData fs none data n =
      ⟨fs, false, [(LOG_WARNING, "FILEIO: File name provided is not valid")]⟩ ∧
    saveFileText fs none text =
      ⟨fs, false, [(LOG_WARNING, "FILEIO: File name provided is not valid")]⟩ :=
  ⟨rfl, rfl, rfl, rfl⟩

/-- C6 counterexample: saving a ZERO-length sequence and loading it back does
not return a buffer — `LoadFileData` treats the size-0 file as the
`Failed to read file` soft-failure and returns the `NULL` sentinel. -/
theorem save_load_zero_length_counterexample :
    (loadFileData (saveFileData fsRW (some "save.dat") [] 0).fs (some "save.dat")).data
        ≠ some ([] : List Nat) ∧
    (loadFileData (saveFileData fsRW (some "save.dat") [] 0).fs (some "save.dat")).data
        = none ∧
    (loadFileData (saveFileData fsRW (some "save.dat") [] 0).fs (some "save.dat")).logs
        = [(LOG_WARNING, "FILEIO: [save.dat] Failed to read file")] := by
  refine ⟨by decide, rfl, rfl⟩

/-- C6 amended: for every filesystem, every path whose write-open and size
query succeed, and every NONEMPTY byte sequence (embedded zero bytes
included), `SaveFileData` followed by `LoadFileData` on the same path yields
exactly the saved bytes with `bytesRead` equal to the length. -/
theorem save_load_roundtrip (fs : FS) (name : String) (data : List Nat)
    (hw : fs.writeOk name = true) (hf : fs.ftellOk name = true)
    (hne : data ≠ []) :
    (loadFileData (saveFileData fs (some name) data data.length).fs
        (some name)).data = some data ∧
    (loadFileData (saveFileData fs (some name) data data.length).fs
        (some name)).bytesRead = data.length := by
  have hpos : 0 < data.length := List.length_pos.mpr hne
  simp [saveFileData, hw, loadFileData, FS.openRead, List.lookup, hf, hpos]

/-- Witness for C6 amended at a concrete input with an embedded zero byte. -/
theorem save_load_roundtrip_witness :
    fsRW.writeOk "save.dat" = true ∧ fsRW.ftellOk "save.dat" = true ∧
    ([7, 0, 255] : List Nat) ≠ [] ∧
    (loadFileData (saveFileData fsRW (some "save.dat") [7, 0, 255] 3).fs
        (some "save.dat")).data = some [7, 0, 255] ∧
    (loadFileData (saveFileData fsRW (some "save.dat") [7, 0, 255] 3).fs
        (some "save.dat")).bytesRead = 3 :=
  ⟨rfl, rfl, by decide,
    (save_load_roundtrip fsRW "save.dat" [7, 0, 255] rfl rfl (by decide)).1,
    (save_load_roundtrip fsRW "save.dat" [7, 0, 255] rfl rfl (by decide)).2⟩

/-- C7: when the size query fails, `LoadFileText` does NOT return the null
result with a warning. `unsigned int size = (unsigned int)ftell(...)` turns
`-1` into `2^32 - 1`, which passes the `size > 0` test, so the function takes
the success branch and returns a non-null buffer with the success info log
(unlike `LoadFileData`, whose signed `int size` catches the failure). -/
theorem loadFileText_unreadable_size_not_null :
    (loadFileText fsFtellFail (some "a.txt")).text = some [65, 66, 0] ∧
    (loadFileText fsFtellFail (some "a.txt")).logs =
      [(LOG_INFO, "FILEIO: [a.txt] Text file loaded successfully")] := by
  refine ⟨rfl, rfl⟩

/-- C7 would require this at a failed size query; shown here at the same
concrete input for contrast: `LoadFileData`'s signed comparison does catch
the `ftell` failure on the very same file. -/
theorem loadFileData_unreadable_size_is_null :
    (loadFileData fsFtellFail (some "a.txt")).data = none ∧
    (loadFileData fsFtellFail (some "a.txt")).logs =
      [(LOG_WARNING, "FILEIO: [a.txt] Failed to read file")] := by
  refine ⟨rfl, rfl⟩

/-- C8 counterexample: the mode string `"a"` (append) indicates write intent,
yet `android_fopen` — which tests only `mode[0] == 'w'` — queries the asset
bundle and returns the bundle adapter instead of a direct open under the
base path. -/
theorem android_fopen_append_counterexample :
    modeIndicatesWriteIntent "a" = true ∧
    (android_fopen androidEnv0 "save.dat" "a").assetQueried = true ∧
    (android_fopen androidEnv0 "save.dat" "a").file =
      AndroidFile.assetStream "save.dat" := by
  refine ⟨rfl, rfl, rfl⟩

/-- C8 amended: for every environment, path, and mode string whose FIRST
character is `'w'`, `android_fopen` never touches the asset bundle and opens
the path directly under the base data path via the standard filesystem. -/
theorem android_fopen_write_mode_direct (env : AndroidEnv)
    (fileName mode : String) (h : mode.data.head? = some 'w') :
    android_fopen env fileName mode =
      ⟨AndroidFile.direct (env.internalDataPath ++ "/" ++ fileName) mode, false⟩ := by
  simp [android_fopen, h]

/-- Witness for C8 amended at mode `"wb"`. -/
theorem android_fopen_write_mode_direct_witness :
    ("wb".data.head? = some 'w') ∧
    android_fopen androidEnv0 "player.sav" "wb" =
      ⟨AndroidFile.direct "/data/data/app/player.sav" "wb", false⟩ :=
  ⟨rfl, (android_fopen_write_mode_direct androidEnv0 "player.sav" "wb" rfl).trans
    (by rfl)⟩

/-- C9: `android_write` logs the read-only warning but returns `EACCES = 13`,
a positive value. Under the `funopen` cookie-write contract (nonnegative
return = bytes written, `-1` = error) this reports a 13-byte successful
transfer to the stream layer, not a failed write. -/
theorem android_write_returns_positive_eacces (buf : List Nat) (size : Int) :
    (android_write buf size).ret = EACCES ∧
    (android_write buf size).ret = 13 ∧
    0 < (android_write buf size).ret ∧
    (android_write buf size).logs =
      [(LOG_WARNING, "ANDROID: Failed to provide write access to APK")] :=
  ⟨rfl, rfl, by norm_num [android_write, EACCES], rfl⟩

/-- C10: a zero-length save to a path that opens successfully logs the
`Failed to write file` warning, never the success message: `fwrite` returns
0, and the `count == 0` test precedes the full-write comparison. -/
theorem saveFileData_zero_length_logs_failure (fs : FS) (name : String)
    (data : List Nat) (hw : fs.writeOk name = true) :
    (saveFileData fs (some name) data 0).logs =
      [(LOG_WARNING, "FILEIO: [" ++ name ++ "] Failed to write file")] ∧
    (saveFileData fs (some name) data 0).logs ≠
      [(LOG_INFO, "FILEIO: [" ++ name ++ "] File saved successfully")] := by
  constructor
  · simp [saveFileData, hw]
  · simp [saveFileData, hw, LOG_WARNING, LOG_INFO]

/-- Witness for C10 at a concrete path. -/
theorem saveFileData_zero_length_logs_failure_witness :
    fsRW.writeOk "out.bin" = true ∧
    (saveFileData fsRW (some "out.bin") [9] 0).logs =
      [(LOG_WARNING, "FILEIO: [out.bin] Failed to write file")] :=
  ⟨rfl, (saveFileData_zero_length_logs_failure fsRW "out.bin" [9] rfl).1.trans
    (by rfl)⟩

/-- C5: the staging-buffer write is NOT guarded. At severity `LOG_INFO` with
a 121-character format string, `strcpy`/`strcat` store
`6 + 121 + 1 + 1 = 129` bytes into `char buffer[128]`, one byte past the end
of the buffer; no length check exists on this path in `TraceLog`. -/
theorem tracelog_staging_buffer_overflow :
    tracelogStagedBytes LOG_INFO (String.mk (List.replicate 121 'A')) = 129 ∧
    MAX_TRACELOG_MSG_LENGTH <
      tracelogStagedBytes LOG_INFO (String.mk (List.replicate 121 'A')) := by
  constructor
  · decide
  · decide

end RaylibUtils
